import Mathlib

/-!
Verification of the bonus-activation saga (io-functions-bonus).

Shallow embedding of the repository sources:
- utils/hash.ts            : generateFamilyUID
- clients/adeClient.ts     : error-shape decoders, serializeBonus
- FailedBonusActivationActivity/handler.ts : compensation handler
- StartBonusActivationOrchestrator         : saga step sequence
- ValidateEligibilityCheckActivity         : conflict validation
- utils/conversions.ts     : calculateMaxBonusAmountFromFamilyMemberCount,
                             toEligibilityCheckFromDSU

Modelling conventions: a JavaScript Date is represented by its ISO-8601
rendering (a String), so that toISOString is the identity on the
representation; the sha256 hex digest used by generateFamilyUID is an external
primitive and is passed as an explicit function parameter toHash; the
JavaScript sort by localeCompare is modelled as sorting by the code-point
lexicographic order on String, given below as the executable comparison
localeLe (any correct sort produces the same list, by uniqueness of sorted
permutations); a TaskEither left, or a resolved rejection, is Except.error; a
thrown exception escaping a handler is Except.error at the outermost level.
-/

namespace IoFunctionsBonus

/-! ## Lexicographic string order (model of the localeCompare comparator) -/

/-- Lexicographic less-or-equal on character lists, comparing code points. -/
def charListLe : List Char → List Char → Bool
  | [], _ => true
  | _ :: _, [] => false
  | a :: as, b :: bs =>
    if a.toNat < b.toNat then true
    else if b.toNat < a.toNat then false
    else charListLe as bs

/-- Lexicographic less-or-equal on strings: the model of the total order
induced by the localeCompare comparator used in the sources. -/
def localeLe (a b : String) : Bool := charListLe a.data b.data

/-- The sorting relation on strings derived from localeLe. -/
def sLe : String → String → Prop := fun a b => localeLe a b = true

theorem charToNat_inj {a b : Char} (h : a.toNat = b.toNat) : a = b := by
  apply Char.ext
  exact UInt32.toNat.inj h

theorem charListLe_total : ∀ a b, charListLe a b = true ∨ charListLe b a = true := by
  intro a
  induction a with
  | nil => intro b; left; rfl
  | cons x xs ih =>
    intro b
    cases b with
    | nil => right; rfl
    | cons y ys =>
      by_cases hxy : x.toNat < y.toNat
      · left; simp [charListLe, hxy]
      · by_cases hyx : y.toNat < x.toNat
        · right; simp [charListLe, hyx]
        · rcases ih ys with h | h
          · left; simp [charListLe, hxy, hyx, h]
          · right; simp [charListLe, hxy, hyx, h]

theorem charListLe_antisymm : ∀ a b, charListLe a b = true → charListLe b a = true → a = b := by
  intro a
  induction a with
  | nil =>
    intro b _ hba
    cases b with
    | nil => rfl
    | cons y ys => simp [charListLe] at hba
  | cons x xs ih =>
    intro b hab hba
    cases b with
    | nil => simp [charListLe] at hab
    | cons y ys =>
      by_cases hxy : x.toNat < y.toNat
      · simp [charListLe, hxy, Nat.not_lt_of_lt hxy] at hba
      · by_cases hyx : y.toNat < x.toNat
        · simp [charListLe, hxy, hyx] at hab
        · have hx : x = y := charToNat_inj (Nat.le_antisymm (Nat.not_lt.mp hyx) (Nat.not_lt.mp hxy))
          subst hx
          simp [charListLe, hxy, hyx] at hab hba
          rw [ih ys hab hba]

theorem charListLe_trans : ∀ a b c, charListLe a b = true → charListLe b c = true → charListLe a c = true := by
  intro a
  induction a with
  | nil => intro b c _ _; rfl
  | cons x xs ih =>
    intro b c hab hbc
    cases b with
    | nil => simp [charListLe] at hab
    | cons y ys =>
      cases c with
      | nil => simp [charListLe] at hbc
      | cons z zs =>
        simp only [charListLe] at hab hbc ⊢
        by_cases hxy : x.toNat < y.toNat
        · by_cases hyz : y.toNat < z.toNat
          · simp [Nat.lt_trans hxy hyz]
          · by_cases hzy : z.toNat < y.toNat
            · simp [hyz, hzy] at hbc
            · have : y.toNat = z.toNat := Nat.le_antisymm (Nat.not_lt.mp hzy) (Nat.not_lt.mp hyz)
              simp [this ▸ hxy]
        · by_cases hyx : y.toNat < x.toNat
          · simp [hxy, hyx] at hab
          · have hxyeq : x.toNat = y.toNat := Nat.le_antisymm (Nat.not_lt.mp hyx) (Nat.not_lt.mp hxy)
            by_cases hyz : y.toNat < z.toNat
            · simp [hxyeq ▸ hyz]
            · by_cases hzy : z.toNat < y.toNat
              · simp [hyz, hzy] at hbc
              · have hxz : ¬ x.toNat < z.toNat := hxyeq ▸ hyz
                have hzx : ¬ z.toNat < x.toNat := hxyeq ▸ hzy
                rw [if_neg hxy, if_neg hyx] at hab
                rw [if_neg hyz, if_neg hzy] at hbc
                rw [if_neg hxz, if_neg hzx]
                exact ih ys zs hab hbc

instance : IsTotal String sLe := ⟨fun a b => charListLe_total a.data b.data⟩

instance : IsTrans String sLe := ⟨fun a b c => charListLe_trans a.data b.data c.data⟩

instance : IsAntisymm String sLe := ⟨fun a b hab hba => String.ext (charListLe_antisymm a.data b.data hab hba)⟩

instance : DecidableRel sLe := fun a b => by unfold sLe; infer_instance

/-- Sorted permutations are unique: sorting by sLe is invariant under
permutation of the input. -/
theorem insertionSort_congr_of_perm {l1 l2 : List String} (h : l1.Perm l2) :
    List.insertionSort sLe l1 = List.insertionSort sLe l2 :=
  List.eq_of_perm_of_sorted
    ((List.perm_insertionSort sLe l1).trans (h.trans (List.perm_insertionSort sLe l2).symm))
    (List.sorted_insertionSort sLe l1) (List.sorted_insertionSort sLe l2)

/-! ## Data model -/

/-- A family member as it appears in rosters (the FamilyMember model). -/
structure FamilyMember where
  fiscalCode : String
  name : String
  surname : String
deriving DecidableEq

/-- Concatenation with the empty separator, as the join with an empty string
used by the sources. -/
def joinAll : List String → String
  | [] => ""
  | s :: rest => s ++ joinAll rest

/-- Embedding of generateFamilyUID (utils/hash.ts): map the family members to
their fiscal codes, sort them by the localeCompare order, join with the empty
string and hash the result. The sha256 hex digest toHash is an external
primitive and is an explicit parameter. -/
def generateFamilyUID (toHash : String → String) (familyMembers : List FamilyMember) : String :=
  toHash (joinAll (List.insertionSort sLe (familyMembers.map (·.fiscalCode))))

/-- Two rosters have equal sets of fiscal codes (order and duplicate entries
ignored) when the finite sets of their fiscal codes coincide. -/
def sameFiscalCodeSet (a b : List FamilyMember) : Prop :=
  (a.map (·.fiscalCode)).toFinset = (b.map (·.fiscalCode)).toFinset

instance (a b : List FamilyMember) : Decidable (sameFiscalCodeSet a b) := by
  unfold sameFiscalCodeSet; infer_instance

/-- The statement of the claim that generateFamilyUID depends on a roster only
through its deduplicated set of fiscal codes. -/
def FamilyUIDDependsOnlyOnCodeSet : Prop :=
  ∀ (toHash : String → String) (a b : List FamilyMember),
    sameFiscalCodeSet a b → generateFamilyUID toHash a = generateFamilyUID toHash b

/-- A concrete roster member used in concrete instances. -/
def memberA : FamilyMember := { fiscalCode := "AAABBB80A01C123D", name := "Mario", surname := "Rossi" }

/-- A second concrete roster member. -/
def memberB : FamilyMember := { fiscalCode := "CCCDDD80A01C123D", name := "Chiara", surname := "Bianchi" }

/-! ## ADE client (clients/adeClient.ts) -/

/-- One entry of the nucleoFamiliare roster in the ADE wire format. -/
structure NucleoFamiliareMember where
  codiceFiscale : String
deriving DecidableEq

/-- The BonusVacanzaWithoutMac wire object sent to the ADE API. The
dataGenerazione Date is represented by its ISO-8601 rendering, so the
toISOString call of the source is the identity on this representation. The
flagDifformita field is the 0/1 number of the wire format. -/
structure BonusVacanzaWithoutMac where
  codiceBuono : String
  codiceFiscaleDichiarante : String
  dataGenerazione : String
  flagDifformita : Nat
  importoMassimo : Nat
  nucleoFamiliare : List NucleoFamiliareMember
deriving DecidableEq

/-- Embedding of serializeBonus (clients/adeClient.ts): the flat concatenation
codiceFiscaleDichiarante, codiceBuono, importoMassimo.toString(),
dataGenerazione.toISOString(), flagDifformita.toString(), followed by the
nucleoFamiliare fiscal codes sorted by localeCompare, joined with the empty
string. -/
def serializeBonus (bv : BonusVacanzaWithoutMac) : String :=
  joinAll ([bv.codiceFiscaleDichiarante, bv.codiceBuono, toString bv.importoMassimo,
    bv.dataGenerazione, toString bv.flagDifformita] ++
    List.insertionSort sLe (bv.nucleoFamiliare.map (·.codiceFiscale)))

/-- Base shape of a BonusVacanzaError payload (generated ade model): an error
code and a message. -/
structure BonusVacanzaErrorPayload where
  errorCode : String
  errorMessage : String
deriving DecidableEq

/-- The body of a response from the ADE richiestaBonus call as seen by the
classifier: a BonusVacanzaError payload, a success payload carrying the
confirmed bonus, or a body that matches no known shape (carried together with
its serialized form). -/
inductive AdeResponseValue where
  | errorPayload (e : BonusVacanzaErrorPayload)
  | resultPayload (bonus : BonusVacanzaWithoutMac)
  | unknownBody (serialized : String)
deriving DecidableEq

/-- A decoded response from the ADE API: HTTP status plus body. -/
structure AdeResponse where
  status : Nat
  value : AdeResponseValue
deriving DecidableEq

/-- Decoder BonusVacanzaGenericError: BonusVacanzaError with errorCode 4000. -/
def isBonusVacanzaGenericError : AdeResponseValue → Bool
  | .errorPayload e => e.errorCode == "4000"
  | _ => false

/-- Decoder BonusVacanzaApplicationGenericError: errorCode 3000. -/
def isBonusVacanzaApplicationGenericError : AdeResponseValue → Bool
  | .errorPayload e => e.errorCode == "3000"
  | _ => false

/-- Decoder BonusVacanzaCodeAlreadyPresentError: errorCode 1000. -/
def isBonusVacanzaCodeAlreadyPresentError : AdeResponseValue → Bool
  | .errorPayload e => e.errorCode == "1000"
  | _ => false

/-- Decoder BonusVacanzaRequestedByOtherFamilyMemberError: errorCode 1005. -/
def isBonusVacanzaRequestedByOtherFamilyMemberError : AdeResponseValue → Bool
  | .errorPayload e => e.errorCode == "1005"
  | _ => false

/-- Decoder BonusVacanzaEmptyFamilyError: errorCode 900. -/
def isBonusVacanzaEmptyFamilyError : AdeResponseValue → Bool
  | .errorPayload e => e.errorCode == "900"
  | _ => false

/-- Decoder BonusVacanzaNoFiscalCodeProvidedProvidedError: errorCode 907. -/
def isBonusVacanzaNoFiscalCodeProvidedError : AdeResponseValue → Bool
  | .errorPayload e => e.errorCode == "907"
  | _ => false

/-- Decoder BonusVacanzaNoGenerationDateProvidedProvidedError: errorCode 908. -/
def isBonusVacanzaNoGenerationDateProvidedError : AdeResponseValue → Bool
  | .errorPayload e => e.errorCode == "908"
  | _ => false

/-- Decoder BonusVacanzaTransientError: the union of the generic service error
and the generic application error (clients/adeClient.ts). -/
def isBonusVacanzaTransientError (v : AdeResponseValue) : Bool :=
  isBonusVacanzaGenericError v || isBonusVacanzaApplicationGenericError v

/-- Decoder BonusVacanzaInvalidRequestError: the union of the five validation
error shapes (clients/adeClient.ts). -/
def isBonusVacanzaInvalidRequestError (v : AdeResponseValue) : Bool :=
  isBonusVacanzaCodeAlreadyPresentError v ||
  isBonusVacanzaRequestedByOtherFamilyMemberError v ||
  isBonusVacanzaEmptyFamilyError v ||
  isBonusVacanzaNoFiscalCodeProvidedError v ||
  isBonusVacanzaNoGenerationDateProvidedError v

/-- Model of JSON.stringify on a response body. -/
def serializeAdeResponseValue : AdeResponseValue → String
  | .errorPayload e => "(errorCode=" ++ e.errorCode ++ ",errorMessage=" ++ e.errorMessage ++ ")"
  | .resultPayload b => "(result=" ++ serializeBonus b ++ ")"
  | .unknownBody s => s

/-- Model of JSON.stringify on a whole decoded response. -/
def serializeAdeResponse (r : AdeResponse) : String :=
  "(status=" ++ toString r.status ++ ",value=" ++ serializeAdeResponseValue r.value ++ ")"

/-- Reason carried by a SendBonusActivationFailure: either a decoded error
payload or a serialized raw body. -/
inductive SendBonusActivationReason where
  | payload (e : BonusVacanzaErrorPayload)
  | text (s : String)
deriving DecidableEq

/-- Result of the SendBonusActivationActivity when it does not raise. -/
inductive SendBonusActivationResultValue where
  | success
  | invalidInput
  | failure (reason : SendBonusActivationReason)
deriving DecidableEq

/-- Modelled from the spec: the SendBonusActivationActivity handler is not
under src (only its tests and the adeClient decoders are). Per the
classification table of the spec: a body decoding as BonusVacanzaTransientError
raises the response as a transient fault (Except.error); a body decoding as
BonusVacanzaInvalidRequestError yields a domain Failure carrying the payload
as reason; a 2xx grant confirmation yields Success; any body decoding against
no known shape yields a Failure whose reason is the raw response serialized as
a string. -/
def SendBonusActivationHandler (resp : AdeResponse) : Except AdeResponse SendBonusActivationResultValue :=
  match resp.value with
  | .errorPayload e =>
    if isBonusVacanzaTransientError (.errorPayload e) then .error resp
    else if isBonusVacanzaInvalidRequestError (.errorPayload e) then .ok (.failure (.payload e))
    else .ok (.failure (.text (serializeAdeResponse resp)))
  | .resultPayload _ => .ok .success
  | .unknownBody _ => .ok (.failure (.text (serializeAdeResponse resp)))

/-! ## BonusActivation model and the compensation handler
(FailedBonusActivationActivity/handler.ts) -/

/-- Lifecycle status of a BonusActivation (the members used by the sources). -/
inductive BonusActivationStatus where
  | ACTIVE
  | FAILED
deriving DecidableEq

/-- The embedded DSU snapshot of a BonusActivation (the Dsu model). Dates are
represented by their ISO-8601 renderings. -/
structure Dsu where
  dsuCreatedAt : String
  dsuProtocolId : String
  familyMembers : List FamilyMember
  hasDiscrepancies : Bool
  iseeType : String
  maxAmount : Nat
  maxTaxBenefit : Nat
  requestId : String
deriving DecidableEq

/-- The BonusActivationWithFamilyUID model: the durable record of a grant
together with the owning FamilyUID. -/
structure BonusActivationWithFamilyUID where
  id : String
  applicantFiscalCode : String
  status : BonusActivationStatus
  createdAt : String
  dsuRequest : Dsu
  familyUID : String
deriving DecidableEq

/-- A document-store operation issued by an activity, recorded in an
observable trace. The deleteEligibilityCheckById and deleteBonusLeaseById
operations carry the document key they were issued with. -/
inductive StoreOp where
  | deleteEligibilityCheckById (id : String)
  | upsertBonusActivation (doc : BonusActivationWithFamilyUID) (partitionKey : String)
  | deleteBonusLeaseById (id : String)
  | persistBonusActive (fiscalCode : String)
deriving DecidableEq

/-- The store collaborators injected into the compensation handler; each
operation either succeeds with its result or fails with a query error
message (the fromQueryEither left of the source). -/
structure CompStores where
  eligibilityDeleteOneById : String → Except String String
  bonusActivationCreateOrUpdate : BonusActivationWithFamilyUID → String → Except String BonusActivationWithFamilyUID
  bonusLeaseDeleteOneById : String → Except String String

/-- The FailedBonusActivationResult tagged union of the source: SUCCESS,
INVALID_INPUT, UNHANDLED_FAILURE with a reason, or TRANSIENT. -/
inductive FailedBonusActivationResult where
  | success
  | invalidInput
  | unhandledFailure (reason : String)
  | transient
deriving DecidableEq

/-- The unknown input given to an activity: either an object of the
FailedBonusActivationInput shape (a bonusActivation field holding a
BonusActivationWithFamilyUID), or the OrchestratorInput value (familyUID and
fiscalCode) that StartBonusActivationOrchestrator actually passes, or
anything else. -/
inductive ActivityInput where
  | failedBonusActivationInput (bonusActivation : BonusActivationWithFamilyUID)
  | orchestratorValue (familyUID : String) (fiscalCode : String)
  | otherInput
deriving DecidableEq

/-- Decoding of FailedBonusActivationInput: only an object with a
bonusActivation field decodes; the OrchestratorInput shape and any other
value fail to decode. -/
def decodeFailedBonusActivationInput : ActivityInput → Option BonusActivationWithFamilyUID
  | .failedBonusActivationInput b => some b
  | _ => none

/-- Embedding of deleteEligibilityCheck (handler.ts): issues deleteOneById on
the eligibility-check store with the key bonusActivation.id, maps any query
failure to TRANSIENT and any success to the unchanged bonusActivation. -/
def deleteEligibilityCheck (stores : CompStores) (bonusActivation : BonusActivationWithFamilyUID) :
    List StoreOp × Except FailedBonusActivationResult BonusActivationWithFamilyUID :=
  ([.deleteEligibilityCheckById bonusActivation.id],
    match stores.eligibilityDeleteOneById bonusActivation.id with
    | .error _ => .error .transient
    | .ok _ => .ok bonusActivation)

/-- The document written by updateBonusAsFailed: the input bonus activation
with status replaced by FAILED. -/
def bonusToUpdate (bonusActivation : BonusActivationWithFamilyUID) : BonusActivationWithFamilyUID :=
  { bonusActivation with status := .FAILED }

/-- Embedding of updateBonusAsFailed (handler.ts): createOrUpdate of the
FAILED-status document keyed by the activation identifier; a query failure is
UNHANDLED_FAILURE with the error message as reason. -/
def updateBonusAsFailed (stores : CompStores) (bonusActivation : BonusActivationWithFamilyUID) :
    List StoreOp × Except FailedBonusActivationResult BonusActivationWithFamilyUID :=
  ([.upsertBonusActivation (bonusToUpdate bonusActivation) bonusActivation.id],
    match stores.bonusActivationCreateOrUpdate (bonusToUpdate bonusActivation) bonusActivation.id with
    | .error msg => .error (.unhandledFailure msg)
    | .ok retrieved => .ok retrieved)

/-- Embedding of relaseLockForUserFamily (handler.ts): deleteOneById on the
bonus-lease store with the FamilyUID; a query failure is UNHANDLED_FAILURE
prefixed with the error-releasing-lock message, success returns the
FamilyUID. -/
def relaseLockForUserFamily (bonusLeaseDeleteOneById : String → Except String String) (familyUID : String) :
    List StoreOp × Except FailedBonusActivationResult String :=
  ([.deleteBonusLeaseById familyUID],
    match bonusLeaseDeleteOneById familyUID with
    | .error msg => .error (.unhandledFailure ("Error releasing lock: " ++ msg))
    | .ok _ => .ok familyUID)

/-- The final map of the handler: a TRANSIENT result is thrown to the host
(the transient-failure Error of the source), every other result is returned. -/
def throwIfTransient (r : FailedBonusActivationResult) : Except String FailedBonusActivationResult :=
  match r with
  | .transient => .error "transient failure"
  | other => .ok other

/-- Embedding of FailedBonusActivationHandler (handler.ts): decode the input
(failure gives INVALID_INPUT), then chain deleteEligibilityCheck,
updateBonusAsFailed and relaseLockForUserFamily, fold the first failure or
SUCCESS, and throw if the folded result is TRANSIENT. The first component is
the trace of store operations actually issued. -/
def FailedBonusActivationHandler (stores : CompStores) (input : ActivityInput) :
    List StoreOp × Except String FailedBonusActivationResult :=
  match decodeFailedBonusActivationInput input with
  | none => ([], throwIfTransient .invalidInput)
  | some bonusActivation =>
    let step1 := deleteEligibilityCheck stores bonusActivation
    match step1.2 with
    | .error f => (step1.1, throwIfTransient f)
    | .ok b1 =>
      let step2 := updateBonusAsFailed stores b1
      match step2.2 with
      | .error f => (step1.1 ++ step2.1, throwIfTransient f)
      | .ok retrieved =>
        let step3 := relaseLockForUserFamily stores.bonusLeaseDeleteOneById retrieved.familyUID
        match step3.2 with
        | .error f => (step1.1 ++ step2.1 ++ step3.1, throwIfTransient f)
        | .ok _ => (step1.1 ++ step2.1 ++ step3.1, throwIfTransient .success)

/-! ## Saga orchestrator (StartBonusActivationOrchestrator) -/

/-- The OrchestratorInput of StartBonusActivationOrchestrator: the FamilyUID
and the fiscal code of the requester. -/
structure OrchestratorInput where
  familyUID : String
  fiscalCode : String
deriving DecidableEq

/-- Whether the value returned by SendBonusActivationActivity matches the
SendBonusActivationFailure shape (the branch test of the orchestrator). -/
inductive SendOutcome where
  | failureOutcome
  | successOutcome
deriving DecidableEq

/-- An activity invocation issued by the orchestrator, with the input it
passes. -/
inductive ActivityCall where
  | sendBonusActivation (input : OrchestratorInput)
  | failedBonusActivation (input : OrchestratorInput)
  | successBonusActivation (input : OrchestratorInput)
  | unlockBonusActivation (familyUID : String)
deriving DecidableEq

/-- Embedding of the StartBonusActivationOrchestrator generator body: decode
the input (failure returns false with no activity called); otherwise call
SendBonusActivationActivity with the decoded input, branch on whether its
result matches SendBonusActivationFailure (failure path calls
FailedBonusActivationActivity, success path calls
SuccessBonusActivationActivity, both with the decoded OrchestratorInput), then
unconditionally call UnlockBonusActivationActivity with the familyUID, and
return true. -/
def StartBonusActivationOrchestrator (input : Option OrchestratorInput) (send : SendOutcome) :
    List ActivityCall × Bool :=
  match input with
  | none => ([], false)
  | some inp =>
    ([ActivityCall.sendBonusActivation inp]
      ++ (match send with
          | .failureOutcome => [ActivityCall.failedBonusActivation inp]
          | .successOutcome => [ActivityCall.successBonusActivation inp])
      ++ [ActivityCall.unlockBonusActivation inp.familyUID], true)

/-- Modelled from the spec: SuccessBonusActivationActivity is not under src.
Per the control flow of the spec the success path persists the activation as
ACTIVE and performs no lease operation. -/
def SuccessBonusActivationActivityModel (inp : OrchestratorInput) : List StoreOp × Except String Unit :=
  ([.persistBonusActive inp.fiscalCode], .ok ())

/-- Modelled from the spec: UnlockBonusActivationActivity is not under src.
It releases the BonusLease for the given FamilyIdentity by an idempotent
delete. -/
def UnlockBonusActivationActivityModel (familyUID : String) : List StoreOp × Except String Unit :=
  ([.deleteBonusLeaseById familyUID], .ok ())

/-- Interpretation of one activity invocation over the document stores.
SendBonusActivationActivity calls only the external ADE API and issues no
document-store operation; FailedBonusActivationActivity runs the embedded
compensation handler on the OrchestratorInput value that the orchestrator
passes it. -/
def runActivity (stores : CompStores) : ActivityCall → List StoreOp × Except String Unit
  | .sendBonusActivation _ => ([], .ok ())
  | .failedBonusActivation inp =>
    let run := FailedBonusActivationHandler stores (.orchestratorValue inp.familyUID inp.fiscalCode)
    (run.1, run.2.map fun _ => ())
  | .successBonusActivation inp => SuccessBonusActivationActivityModel inp
  | .unlockBonusActivation familyUID => UnlockBonusActivationActivityModel familyUID

/-- Run a sequence of activity calls in order; an activity that throws aborts
the saga (remaining calls are not issued) and the run reports false. -/
def runCalls (stores : CompStores) : List ActivityCall → List StoreOp × Bool
  | [] => ([], true)
  | c :: rest =>
    let step := runActivity stores c
    match step.2 with
    | .error _ => (step.1, false)
    | .ok _ =>
      let restRun := runCalls stores rest
      (step.1 ++ restRun.1, restRun.2)

/-- The composed saga for a decoded input: the orchestrator issues its
activity sequence and each activity is interpreted over the stores. -/
def runSaga (stores : CompStores) (inp : OrchestratorInput) (send : SendOutcome) : List StoreOp × Bool :=
  runCalls stores (StartBonusActivationOrchestrator (some inp) send).1

/-- Whether a store operation releases a BonusLease. -/
def isLeaseRelease : StoreOp → Bool
  | .deleteBonusLeaseById _ => true
  | _ => false

/-! ## BonusLease store (models/bonus_lease.ts, spec-modelled) -/

/-- State of the bonus-lease collection: the set of FamilyUIDs currently
holding a lease, plus an optional backend fault (a transport or query error
of the document store). -/
structure BonusLeaseStore where
  leases : List String
  backendError : Option String
deriving DecidableEq

/-- Modelled from the spec: the BonusLeaseModel (models/bonus_lease.ts) is not
under src, only its callers are. Per the spec the deleteOneById of the lease
is idempotent: deletion of a non-existent lease is treated as success, and
only a genuine backend error yields a query error. -/
def bonusLeaseDeleteOneById (store : BonusLeaseStore) (id : String) : Except String String :=
  match store.backendError with
  | some msg => .error msg
  | none => .ok id

/-! ## Bonus-code generation retry (StartBonusActivation, spec-modelled) -/

/-- Outcome of one create attempt on the bonus-activation collection: the
document was created, the identifier already exists (the 409 conflict of the
document store), or some other query error occurred. -/
inductive CreateBonusOutcome where
  | created
  | conflict409
  | otherQueryError (msg : String)
deriving DecidableEq

/-- Final outcome of the bonus-creation step of StartBonusActivation. -/
inductive StartBonusCreateResult where
  | createdWith (id : String)
  | internalError
deriving DecidableEq

/-- The bounded attempt count used by the source for bonus-code generation. -/
def maxBonusCreationAttempts : Nat := 2

/-- Modelled from the spec: the StartBonusActivation handler is not under src,
only its tests are. On an identifier collision (409) during creation the
handler generates a new identifier and retries the whole request, up to 2
attempts in total; attempt i uses the freshly generated code genCode i;
exhausting the attempts, or any non-conflict query error, surfaces as an
internal/transient error, never as success. The first component is the list
of identifiers attempted, in order. -/
def createBonusWithRetries (create : String → CreateBonusOutcome) (genCode : Nat → String) :
    List String × StartBonusCreateResult :=
  go create genCode 0 maxBonusCreationAttempts
where
  go (create : String → CreateBonusOutcome) (genCode : Nat → String) :
      Nat → Nat → List String × StartBonusCreateResult
    | _, 0 => ([], .internalError)
    | attempt, remaining + 1 =>
      let id := genCode attempt
      match create id with
      | .created => ([id], .createdWith id)
      | .conflict409 =>
        let rest := go create genCode (attempt + 1) remaining
        (id :: rest.1, rest.2)
      | .otherQueryError _ => ([id], .internalError)

/-! ## ValidateEligibilityCheckActivity -/

/-- The error kinds of an EligibilityCheckFailure. -/
inductive EligibilityError where
  | DATABASE_OFFLINE
  | DATA_NOT_FOUND
  | INTERNAL_ERROR
  | INVALID_REQUEST
deriving DecidableEq

/-- The payload of an ELIGIBLE (or CONFLICT) eligibility check: the requester
identifier, the DSU snapshot holding the family roster, and the expiry
timestamp (ISO-8601 rendering). -/
structure EligibleCheckData where
  id : String
  dsuRequest : Dsu
  validBefore : String
deriving DecidableEq

/-- The ApiEligibilityCheck union: the status of the check is the constructor
(ELIGIBLE, INELIGIBLE, FAILURE or CONFLICT); CONFLICT carries the same fields
as ELIGIBLE. -/
inductive ApiEligibilityCheck where
  | eligible (check : EligibleCheckData)
  | ineligible (id : String)
  | failure (error : EligibilityError) (errorDescription : String) (id : String)
  | conflict (check : EligibleCheckData)
deriving DecidableEq

/-- The FamilyUID that the validation activity computes for an eligible
check: generateFamilyUID applied to the family members of the DSU request. -/
def familyUIDOfCheck (toHash : String → String) (check : EligibleCheckData) : String :=
  generateFamilyUID toHash
    (check.dsuRequest.familyMembers.map fun m =>
      { fiscalCode := m.fiscalCode, name := m.name, surname := m.surname })

/-- Embedding of getValidateEligibilityCheckActivityHandler: decode the input
(a decoding error is thrown); a check whose status is not ELIGIBLE is
returned unchanged; for an ELIGIBLE check, look up a BonusLease under the
FamilyUID generated from its family members (a query error is thrown); if a
lease exists the same check is returned with status CONFLICT, otherwise the
check is returned unchanged. The lease lookup returns the optional found
lease. -/
def getValidateEligibilityCheckActivityHandler (toHash : String → String)
    (bonusLeaseFind : String → Except String (Option Unit))
    (input : Option ApiEligibilityCheck) : Except String ApiEligibilityCheck :=
  match input with
  | none => .error "Decoding Error"
  | some eligibilityCheck =>
    match eligibilityCheck with
    | .eligible check =>
      match bonusLeaseFind (familyUIDOfCheck toHash check) with
      | .error e => .error e
      | .ok none => .ok (.eligible check)
      | .ok (some _) => .ok (.conflict check)
    | other => .ok other

/-! ## DSU conversions (utils/conversions.ts) -/

/-- The maximum bonus amount, in Euros, together with the associated tax
benefit, as produced by the MaxBonusAmount codecs. -/
structure MaxBonusAmountValue where
  maxAmount : Nat
  maxTaxBenefit : Nat
deriving DecidableEq

/-- The MaxBonusAmount500 codec value (500 Euro). -/
def MaxBonusAmount500 : MaxBonusAmountValue := { maxAmount := 500, maxTaxBenefit := 100 }

/-- The MaxBonusAmount250 codec value (250 Euro). -/
def MaxBonusAmount250 : MaxBonusAmountValue := { maxAmount := 250, maxTaxBenefit := 50 }

/-- The MaxBonusAmount150 codec value (150 Euro). -/
def MaxBonusAmount150 : MaxBonusAmountValue := { maxAmount := 150, maxTaxBenefit := 30 }

/-- Embedding of calculateMaxBonusAmountFromFamilyMemberCount
(utils/conversions.ts): more than 2 members give the 500 Euro amount, exactly
2 give 250, exactly 1 gives 150, and any other count throws the fatal
count-not-greater-than-zero error (the throw is Except.error). -/
def calculateMaxBonusAmountFromFamilyMemberCount (familyMemberCount : Int) :
    Except String MaxBonusAmountValue :=
  if familyMemberCount > 2 then .ok MaxBonusAmount500
  else if familyMemberCount = 2 then .ok MaxBonusAmount250
  else if familyMemberCount = 1 then .ok MaxBonusAmount150
  else .error ("FATAL: family member count is not greater than 0 [" ++
    toString familyMemberCount ++ "]")

/-- The INPS Esito enumeration (the members used by the sources, plus a
catch-all internal-error member). -/
inductive Esito where
  | OK
  | DATI_NON_TROVATI
  | RICHIESTA_INVALIDA
  | ERRORE_INTERNO
deriving DecidableEq

/-- The SiNoType enumeration of the INPS wire format. -/
inductive SiNoType where
  | SI
  | NO
deriving DecidableEq

/-- One member of the Componenti roster of a DSU response. -/
structure DsuComponente where
  CodiceFiscale : String
  Nome : String
  Cognome : String
deriving DecidableEq

/-- The DatiIndicatore part of a ConsultazioneSogliaIndicatore response. -/
structure DatiIndicatore where
  Componenti : List DsuComponente
  SottoSoglia : SiNoType
  PresenzaDifformita : SiNoType
  DataPresentazioneDSU : String
  ProtocolloDSU : Option String
  TipoIndicatore : String
deriving DecidableEq

/-- The ConsultazioneSogliaIndicatoreResponse of the INPS API. -/
structure ConsultazioneSogliaIndicatoreResponse where
  Esito : Esito
  IdRichiesta : Nat
  DescrizioneErrore : Option String
  DatiIndicatore : Option DatiIndicatore
deriving DecidableEq

/-- The EligibilityCheckFailure error kind computed from a non-OK Esito. -/
def esitoToError : Esito → EligibilityError
  | .DATI_NON_TROVATI => .DATA_NOT_FOUND
  | .RICHIESTA_INVALIDA => .INVALID_REQUEST
  | _ => .INTERNAL_ERROR

/-- Embedding of toEligibilityCheckFromDSU (utils/conversions.ts). The
FamilyMemberCount codec and the per-member FamilyMember codec are generated
code not under src and are passed as parameters (validCount decides whether
the roster size decodes; memberDecode is the fiscal-code and name validation
of one member, none modelling a decode failure that the rights call drops).
An empty roster, or a roster size that fails to decode, yields an
EligibilityCheckFailure with INTERNAL_ERROR; a non-OK Esito yields the mapped
failure; otherwise SottoSoglia decides between the ELIGIBLE check (carrying
the roster, the computed maximum amount and the discrepancy flag) and
INELIGIBLE. The throw of the amount calculation escapes as Except.error. -/
def toEligibilityCheckFromDSU (validCount : Nat → Bool)
    (memberDecode : DsuComponente → Option FamilyMember)
    (data : ConsultazioneSogliaIndicatoreResponse) (fiscalCode : String)
    (validBefore : String) : Except String ApiEligibilityCheck :=
  match data.DatiIndicatore with
  | none => .ok (.failure .INTERNAL_ERROR "DatiIndicatore.Componenti is empty" fiscalCode)
  | some di =>
    if di.Componenti.isEmpty then
      .ok (.failure .INTERNAL_ERROR "DatiIndicatore.Componenti is empty" fiscalCode)
    else if validCount di.Componenti.length = false then
      .ok (.failure .INTERNAL_ERROR "Family member count is out of range" fiscalCode)
    else
      match calculateMaxBonusAmountFromFamilyMemberCount di.Componenti.length with
      | .error e => .error e
      | .ok bonusValue =>
        let validFamilyMembers := (di.Componenti.map memberDecode).reduceOption
        if data.Esito ≠ .OK then
          .ok (.failure (esitoToError data.Esito)
            ((data.DescrizioneErrore).getD "Esito value is not OK") fiscalCode)
        else if di.SottoSoglia = .SI then
          .ok (.eligible
            { id := fiscalCode
              dsuRequest :=
                { dsuCreatedAt := di.DataPresentazioneDSU
                  dsuProtocolId := di.ProtocolloDSU.getD ""
                  familyMembers := validFamilyMembers
                  hasDiscrepancies := decide (di.PresenzaDifformita = .SI)
                  iseeType := di.TipoIndicatore
                  maxAmount := bonusValue.maxAmount
                  maxTaxBenefit := bonusValue.maxTaxBenefit
                  requestId := toString data.IdRichiesta }
              validBefore := validBefore })
        else
          .ok (.ineligible fiscalCode)

/-! ## Concrete values (mirroring the repository mocks) -/

/-- A concrete DSU snapshot. -/
def aDsu : Dsu :=
  { dsuCreatedAt := "2020-05-25T00:00:00.000Z"
    dsuProtocolId := "aDsuProtocolId"
    familyMembers := [memberA, memberB]
    hasDiscrepancies := false
    iseeType := "iseeType"
    maxAmount := 200
    maxTaxBenefit := 80
    requestId := "aRequestId" }

/-- A concrete bonus activation: note that its identifier (a 12 character
bonus code) differs from the requester fiscal code (16 characters). -/
def aBonusActivationWithFamilyUID : BonusActivationWithFamilyUID :=
  { id := "AAAAAAAAAAAA"
    applicantFiscalCode := "AAABBB80A01C123D"
    status := .ACTIVE
    createdAt := "2020-06-11T00:00:00.000Z"
    dsuRequest := aDsu
    familyUID := "aFamilyUid" }

/-- Store collaborators whose three operations return fixed outcomes. -/
def constStores (e1 : Except String String) (e2 : Except String BonusActivationWithFamilyUID)
    (e3 : Except String String) : CompStores :=
  { eligibilityDeleteOneById := fun _ => e1
    bonusActivationCreateOrUpdate := fun _ _ => e2
    bonusLeaseDeleteOneById := fun _ => e3 }

/-- Spec-side restatement of the compensation contract: the three steps in
the fixed order delete-eligibility, upsert-FAILED, release-lease; the first
failing step ends the invocation with its classified failure (TRANSIENT is
thrown, UNHANDLED is returned) and the remaining steps are not issued;
SUCCESS is returned only when all three steps complete. -/
def compensationStepTable (b : BonusActivationWithFamilyUID)
    (e1 : Except String String) (e2 : Except String BonusActivationWithFamilyUID)
    (e3 : Except String String) : List StoreOp × Except String FailedBonusActivationResult :=
  match e1 with
  | .error _ => ([.deleteEligibilityCheckById b.id], .error "transient failure")
  | .ok _ =>
    match e2 with
    | .error msg =>
      ([.deleteEligibilityCheckById b.id, .upsertBonusActivation (bonusToUpdate b) b.id],
        .ok (.unhandledFailure msg))
    | .ok retrieved =>
      match e3 with
      | .error msg =>
        ([.deleteEligibilityCheckById b.id, .upsertBonusActivation (bonusToUpdate b) b.id,
          .deleteBonusLeaseById retrieved.familyUID],
          .ok (.unhandledFailure ("Error releasing lock: " ++ msg)))
      | .ok _ =>
        ([.deleteEligibilityCheckById b.id, .upsertBonusActivation (bonusToUpdate b) b.id,
          .deleteBonusLeaseById retrieved.familyUID], .ok .success)

/-- Whether the status of an ApiEligibilityCheck is ELIGIBLE. -/
def statusIsEligible : ApiEligibilityCheck → Bool
  | .eligible _ => true
  | _ => false

/-! ## Theorems for the claims -/

/-- C4 counterexample: the claim that generateFamilyUID depends on a roster
only through its deduplicated set of fiscal codes is false: the rosters
consisting of memberA twice and of memberA once have equal fiscal-code sets,
yet (with the hash instantiated to the identity to expose the serialized
input) their FamilyUIDs differ, because duplicates are kept by the source. -/
theorem generateFamilyUID_not_set_function : ¬ FamilyUIDDependsOnlyOnCodeSet := by
  intro h
  have heq := h id [memberA, memberA] [memberA] (by decide)
  exact absurd heq (by decide)

/-- C4 (amended): generateFamilyUID is a deterministic function of the sorted
list, with multiplicity, of the fiscal codes of the family members: two
rosters whose fiscal-code lists are equal up to permutation (duplicates
counted) produce the same FamilyUID, for every hash function. -/
theorem generateFamilyUID_depends_only_on_code_multiset (toHash : String → String)
    (a b : List FamilyMember)
    (h : (a.map (·.fiscalCode)).Perm (b.map (·.fiscalCode))) :
    generateFamilyUID toHash a = generateFamilyUID toHash b := by
  unfold generateFamilyUID
  rw [insertionSort_congr_of_perm h]

/-- C4 witness: the amended theorem applied to two concrete reordered
rosters. -/
theorem generateFamilyUID_depends_only_on_code_multiset_witness :
    generateFamilyUID id [memberA, memberB] = generateFamilyUID id [memberB, memberA] :=
  generateFamilyUID_depends_only_on_code_multiset id [memberA, memberB] [memberB, memberA]
    (by decide)

/-- C8: serializeBonus is exactly the separator-free concatenation of the
applicant fiscal code, the bonus code, the stringified maximum amount, the
ISO-8601 generation timestamp, the stringified discrepancy flag, and then the
family fiscal codes sorted lexicographically (a sorted permutation of the
nucleoFamiliare codes). -/
theorem serializeBonus_is_ordered_concatenation (bv : BonusVacanzaWithoutMac) :
    ∃ sortedCodes : List String,
      sortedCodes.Perm (bv.nucleoFamiliare.map (·.codiceFiscale)) ∧
      List.Sorted sLe sortedCodes ∧
      serializeBonus bv =
        bv.codiceFiscaleDichiarante ++ (bv.codiceBuono ++ (toString bv.importoMassimo ++
          (bv.dataGenerazione ++ (toString bv.flagDifformita ++ joinAll sortedCodes)))) := by
  refine ⟨List.insertionSort sLe (bv.nucleoFamiliare.map (·.codiceFiscale)),
    List.perm_insertionSort _ _, List.sorted_insertionSort _ _, ?_⟩
  rfl

/-- C1 (bug evaluation): on a concrete failed activation the first
compensation operation is the eligibility-record delete keyed by the bonus
code of the activation, which differs from the requester identity; the record
keyed by the requester fiscal code is therefore never the one addressed. -/
theorem FailedBonusActivation_deletes_eligibility_by_bonus_code :
    (FailedBonusActivationHandler
        (constStores (.ok "deleted") (.ok (bonusToUpdate aBonusActivationWithFamilyUID)) (.ok "deleted"))
        (.failedBonusActivationInput aBonusActivationWithFamilyUID)).1.head? =
      some (.deleteEligibilityCheckById "AAAAAAAAAAAA") ∧
    aBonusActivationWithFamilyUID.applicantFiscalCode = "AAABBB80A01C123D" ∧
    "AAAAAAAAAAAA" ≠ "AAABBB80A01C123D" :=
  ⟨rfl, rfl, by decide⟩

/-- C2: for every decoded saga input, over arbitrary store collaborators and
both branch outcomes of the grant step, the composed saga issues exactly one
BonusLease release, for the familyUID of the input; the release is the last
store operation before the saga terminates, and the saga completes. -/
theorem saga_releases_lease_exactly_once (stores : CompStores) (inp : OrchestratorInput)
    (send : SendOutcome) :
    ((runSaga stores inp send).1.filter isLeaseRelease) = [.deleteBonusLeaseById inp.familyUID] ∧
    (runSaga stores inp send).1.getLast? = some (.deleteBonusLeaseById inp.familyUID) ∧
    (runSaga stores inp send).2 = true := by
  cases send <;>
    simp [runSaga, StartBonusActivationOrchestrator, runCalls, runActivity,
      FailedBonusActivationHandler, decodeFailedBonusActivationInput, throwIfTransient,
      SuccessBonusActivationActivityModel, UnlockBonusActivationActivityModel, isLeaseRelease,
      Except.map]

/-- C3: over the spec-modelled lease store, releasing the lock for a family
whose lease row is absent succeeds (absence is success) whenever the backend
raises no genuine error, and every UNHANDLED failure reported by the release
step comes from a genuine backend error, never from mere absence. -/
theorem relaseLock_absence_is_success (store : BonusLeaseStore) (familyUID : String) :
    (store.backendError = none → familyUID ∉ store.leases →
      (relaseLockForUserFamily (bonusLeaseDeleteOneById store) familyUID).2 = .ok familyUID) ∧
    (∀ f, (relaseLockForUserFamily (bonusLeaseDeleteOneById store) familyUID).2 = .error f →
      ∃ msg, store.backendError = some msg ∧
        f = .unhandledFailure ("Error releasing lock: " ++ msg)) := by
  constructor
  · intro h _
    simp [relaseLockForUserFamily, bonusLeaseDeleteOneById, h]
  · intro f hf
    cases hb : store.backendError with
    | none => simp [relaseLockForUserFamily, bonusLeaseDeleteOneById, hb] at hf
    | some msg =>
      simp [relaseLockForUserFamily, bonusLeaseDeleteOneById, hb] at hf
      exact ⟨msg, rfl, hf.symm⟩

/-- C3 witness: releasing a lock on an empty lease store with a healthy
backend succeeds. -/
theorem relaseLock_absence_is_success_witness :
    (relaseLockForUserFamily
        (bonusLeaseDeleteOneById { leases := [], backendError := none }) "aFamilyUid").2 =
      .ok "aFamilyUid" :=
  (relaseLock_absence_is_success { leases := [], backendError := none } "aFamilyUid").1
    rfl (by decide)

/-- C5: classification of the ADE response: an error payload with one of the
transient codes 4000 or 3000 makes the activity raise the response as a fault;
an error payload with one of the validation codes 1000, 1005, 900, 907 or 908
yields a domain Failure carrying the payload as reason; an error payload with
any other code, or a body decoding against no known shape, yields a Failure
whose reason is the raw response serialized as a string. -/
theorem sendBonusActivation_classification (status : Nat) (e : BonusVacanzaErrorPayload)
    (s : String) :
    ((e.errorCode = "4000" ∨ e.errorCode = "3000") →
      SendBonusActivationHandler ⟨status, .errorPayload e⟩ = .error ⟨status, .errorPayload e⟩) ∧
    (e.errorCode ∈ ["1000", "1005", "900", "907", "908"] →
      SendBonusActivationHandler ⟨status, .errorPayload e⟩ = .ok (.failure (.payload e))) ∧
    (e.errorCode ∉ ["4000", "3000", "1000", "1005", "900", "907", "908"] →
      SendBonusActivationHandler ⟨status, .errorPayload e⟩ =
        .ok (.failure (.text (serializeAdeResponse ⟨status, .errorPayload e⟩)))) ∧
    (SendBonusActivationHandler ⟨status, .unknownBody s⟩ =
      .ok (.failure (.text (serializeAdeResponse ⟨status, .unknownBody s⟩)))) := by
  refine ⟨?_, ?_, ?_, rfl⟩
  · rintro (h | h) <;>
      simp [SendBonusActivationHandler, isBonusVacanzaTransientError,
        isBonusVacanzaGenericError, isBonusVacanzaApplicationGenericError, h]
  · intro h
    simp only [List.mem_cons, List.not_mem_nil, or_false] at h
    rcases h with h | h | h | h | h <;>
      simp [SendBonusActivationHandler, isBonusVacanzaTransientError,
        isBonusVacanzaGenericError, isBonusVacanzaApplicationGenericError,
        isBonusVacanzaInvalidRequestError, isBonusVacanzaCodeAlreadyPresentError,
        isBonusVacanzaRequestedByOtherFamilyMemberError, isBonusVacanzaEmptyFamilyError,
        isBonusVacanzaNoFiscalCodeProvidedError, isBonusVacanzaNoGenerationDateProvidedError, h]
  · intro h
    simp only [List.mem_cons, List.not_mem_nil, or_false, not_or] at h
    obtain ⟨h1, h2, h3, h4, h5, h6, h7⟩ := h
    simp [SendBonusActivationHandler, isBonusVacanzaTransientError,
      isBonusVacanzaGenericError, isBonusVacanzaApplicationGenericError,
      isBonusVacanzaInvalidRequestError, isBonusVacanzaCodeAlreadyPresentError,
      isBonusVacanzaRequestedByOtherFamilyMemberError, isBonusVacanzaEmptyFamilyError,
      isBonusVacanzaNoFiscalCodeProvidedError, isBonusVacanzaNoGenerationDateProvidedError,
      h1, h2, h3, h4, h5, h6, h7]

/-- C5 witness: the classification evaluated on one payload of each kind. -/
theorem sendBonusActivation_classification_witness :
    SendBonusActivationHandler ⟨500, .errorPayload ⟨"4000", "Errore generico"⟩⟩ =
      .error ⟨500, .errorPayload ⟨"4000", "Errore generico"⟩⟩ ∧
    SendBonusActivationHandler ⟨400, .errorPayload ⟨"1000", "codice presente"⟩⟩ =
      .ok (.failure (.payload ⟨"1000", "codice presente"⟩)) ∧
    SendBonusActivationHandler ⟨123, .errorPayload ⟨"5555", "strange"⟩⟩ =
      .ok (.failure (.text (serializeAdeResponse ⟨123, .errorPayload ⟨"5555", "strange"⟩⟩))) :=
  ⟨(sendBonusActivation_classification 500 ⟨"4000", "Errore generico"⟩ "").1 (Or.inl rfl),
    (sendBonusActivation_classification 400 ⟨"1000", "codice presente"⟩ "").2.1 (by simp),
    (sendBonusActivation_classification 123 ⟨"5555", "strange"⟩ "").2.2.1 (by simp)⟩

/-- C6: over the spec-modelled creation step, when the first create attempt
hits an identifier collision the handler performs exactly the bounded 2
attempts, with the identifiers of attempts 0 and 1 (distinct whenever the
generator yields fresh codes, never reusing the colliding one); and when both
attempts collide the result is the internal/transient error outcome, never a
created bonus. -/
theorem startBonus_retry_on_conflict (create : String → CreateBonusOutcome)
    (genCode : Nat → String) :
    (create (genCode 0) = .conflict409 →
      (createBonusWithRetries create genCode).1 = [genCode 0, genCode 1] ∧
      (createBonusWithRetries create genCode).1.length = maxBonusCreationAttempts ∧
      (genCode 0 ≠ genCode 1 → (createBonusWithRetries create genCode).1.Nodup)) ∧
    (create (genCode 0) = .conflict409 → create (genCode 1) = .conflict409 →
      (createBonusWithRetries create genCode).2 = .internalError ∧
      ∀ id, (createBonusWithRetries create genCode).2 ≠ .createdWith id) := by
  constructor
  · intro h0
    have hids : (createBonusWithRetries create genCode).1 = [genCode 0, genCode 1] := by
      unfold createBonusWithRetries maxBonusCreationAttempts
      cases hc : create (genCode 1) <;>
        simp [createBonusWithRetries.go, h0, hc]
    refine ⟨hids, by rw [hids]; rfl, fun hne => by rw [hids]; simp [hne]⟩
  · intro h0 h1
    have hres : (createBonusWithRetries create genCode).2 = .internalError := by
      unfold createBonusWithRetries maxBonusCreationAttempts
      simp [createBonusWithRetries.go, h0, h1]
    exact ⟨hres, fun id hcontra => by rw [hres] at hcontra; exact absurd hcontra (by simp)⟩

/-- C6 witness: a store where the first generated code collides and the
second is created. -/
theorem startBonus_retry_on_conflict_witness :
    (createBonusWithRetries (fun id => if id == "C0" then .conflict409 else .created)
        (fun n => "C" ++ toString n)).1 = ["C0", "C1"] :=
  ((startBonus_retry_on_conflict (fun id => if id == "C0" then .conflict409 else .created)
    (fun n => "C" ++ toString n)).1 (by decide)).1

/-- C7: the compensation handler refines the spec-side step table: for every
decoded activation and every outcome of the three store operations, the
operations issued and the final result are exactly those of the fixed order
delete-eligibility (failure thrown as TRANSIENT), upsert-FAILED (failure
returned as UNHANDLED), release-lease (failure returned as UNHANDLED), with
SUCCESS returned only when all three steps complete and later steps never
issued after a failure. -/
theorem FailedBonusActivation_matches_step_table (b : BonusActivationWithFamilyUID)
    (e1 : Except String String) (e2 : Except String BonusActivationWithFamilyUID)
    (e3 : Except String String) :
    FailedBonusActivationHandler (constStores e1 e2 e3) (.failedBonusActivationInput b) =
      compensationStepTable b e1 e2 e3 := by
  cases e1 <;> cases e2 <;> cases e3 <;> rfl

/-- C9: the validation activity leaves any check whose status is not ELIGIBLE
unchanged; for an ELIGIBLE check it returns the same check with status
CONFLICT exactly when a BonusLease exists under the FamilyUID generated from
its family members, and returns the input unchanged when no lease exists. -/
theorem validateEligibilityCheck_frame (toHash : String → String)
    (bonusLeaseFind : String → Except String (Option Unit)) :
    (∀ ec : ApiEligibilityCheck, statusIsEligible ec = false →
      getValidateEligibilityCheckActivityHandler toHash bonusLeaseFind (some ec) = .ok ec) ∧
    (∀ check : EligibleCheckData,
      bonusLeaseFind (familyUIDOfCheck toHash check) = .ok (some ()) →
        getValidateEligibilityCheckActivityHandler toHash bonusLeaseFind
          (some (.eligible check)) = .ok (.conflict check)) ∧
    (∀ check : EligibleCheckData,
      bonusLeaseFind (familyUIDOfCheck toHash check) = .ok none →
        getValidateEligibilityCheckActivityHandler toHash bonusLeaseFind
          (some (.eligible check)) = .ok (.eligible check)) := by
  refine ⟨?_, ?_, ?_⟩
  · intro ec hne
    cases ec with
    | eligible check => simp [statusIsEligible] at hne
    | ineligible id => rfl
    | failure e d id => rfl
    | conflict check => rfl
  · intro check hfound
    simp [getValidateEligibilityCheckActivityHandler, hfound]
  · intro check hnone
    simp [getValidateEligibilityCheckActivityHandler, hnone]

/-- C9 witness: the frame theorem evaluated on a concrete eligible check with
a lease present, and on a concrete ineligible check. -/
theorem validateEligibilityCheck_frame_witness :
    getValidateEligibilityCheckActivityHandler id (fun _ => .ok (some ()))
        (some (.eligible { id := "AAABBB80A01C123D", dsuRequest := aDsu, validBefore := "2020-06-12T00:00:00.000Z" })) =
      .ok (.conflict { id := "AAABBB80A01C123D", dsuRequest := aDsu, validBefore := "2020-06-12T00:00:00.000Z" }) ∧
    getValidateEligibilityCheckActivityHandler id (fun _ => .ok (some ()))
        (some (.ineligible "AAABBB80A01C123D")) = .ok (.ineligible "AAABBB80A01C123D") :=
  ⟨(validateEligibilityCheck_frame id (fun _ => .ok (some ()))).2.1
      { id := "AAABBB80A01C123D", dsuRequest := aDsu, validBefore := "2020-06-12T00:00:00.000Z" } rfl,
    (validateEligibilityCheck_frame id (fun _ => .ok (some ()))).1
      (.ineligible "AAABBB80A01C123D") rfl⟩

/-- C10: the maximum bonus amount is 500 Euro for more than 2 family members,
250 for exactly 2, 150 for exactly 1, and the calculation throws for any count
not greater than 0; and toEligibilityCheckFromDSU never reaches the amount
computation on an empty family roster, returning the INTERNAL_ERROR failure
record instead. -/
theorem calculateMaxBonusAmount_spec (n : Int) :
    (2 < n → calculateMaxBonusAmountFromFamilyMemberCount n = .ok MaxBonusAmount500) ∧
    calculateMaxBonusAmountFromFamilyMemberCount 2 = .ok MaxBonusAmount250 ∧
    calculateMaxBonusAmountFromFamilyMemberCount 1 = .ok MaxBonusAmount150 ∧
    MaxBonusAmount500.maxAmount = 500 ∧
    MaxBonusAmount250.maxAmount = 250 ∧
    MaxBonusAmount150.maxAmount = 150 ∧
    (n ≤ 0 → calculateMaxBonusAmountFromFamilyMemberCount n =
      .error ("FATAL: family member count is not greater than 0 [" ++ toString n ++ "]")) ∧
    (∀ (validCount : Nat → Bool) (memberDecode : DsuComponente → Option FamilyMember)
      (data : ConsultazioneSogliaIndicatoreResponse) (fiscalCode validBefore : String),
      ((data.DatiIndicatore.map DatiIndicatore.Componenti).getD []) = [] →
      toEligibilityCheckFromDSU validCount memberDecode data fiscalCode validBefore =
        .ok (.failure .INTERNAL_ERROR "DatiIndicatore.Componenti is empty" fiscalCode)) := by
  refine ⟨?_, rfl, rfl, rfl, rfl, rfl, ?_, ?_⟩
  · intro h
    simp [calculateMaxBonusAmountFromFamilyMemberCount, h]
  · intro h
    have h2 : ¬ (2 : Int) < n := by omega
    have h3 : ¬ n = 2 := by omega
    have h4 : ¬ n = 1 := by omega
    simp [calculateMaxBonusAmountFromFamilyMemberCount, h2, h3, h4]
  · intro validCount memberDecode data fiscalCode validBefore hempty
    obtain ⟨es, idr, desc, dind⟩ := data
    cases dind with
    | none => rfl
    | some di =>
      obtain ⟨comp, ss, pd, dp, pr, ti⟩ := di
      simp only [Option.map_some', Option.getD_some] at hempty
      subst hempty
      rfl

/-- C10 witness: the amount rules and the empty-roster failure evaluated on
concrete inputs. -/
theorem calculateMaxBonusAmount_spec_witness :
    calculateMaxBonusAmountFromFamilyMemberCount 5 = .ok MaxBonusAmount500 ∧
    calculateMaxBonusAmountFromFamilyMemberCount 0 =
      .error ("FATAL: family member count is not greater than 0 [" ++ toString (0 : Int) ++ "]") ∧
    toEligibilityCheckFromDSU (fun _ => true) (fun _ => none)
        { Esito := .OK, IdRichiesta := 1, DescrizioneErrore := none, DatiIndicatore := none }
        "AAABBB80A01C123D" "2020-06-12T00:00:00.000Z" =
      .ok (.failure .INTERNAL_ERROR "DatiIndicatore.Componenti is empty" "AAABBB80A01C123D") :=
  ⟨(calculateMaxBonusAmount_spec 5).1 (by decide),
    (calculateMaxBonusAmount_spec 0).2.2.2.2.2.2.1 (by decide),
    (calculateMaxBonusAmount_spec 0).2.2.2.2.2.2.2 (fun _ => true) (fun _ => none)
      { Esito := .OK, IdRichiesta := 1, DescrizioneErrore := none, DatiIndicatore := none }
      "AAABBB80A01C123D" "2020-06-12T00:00:00.000Z" rfl⟩

end IoFunctionsBonus
